import Mathlib

/-!
Shallow embedding of the usps-tracking-status Cloudflare worker
(src/src/index.ts, schema in src/.schema.sql, historical variants in
src/unnamed/part_000) and proofs about its core data pipeline:
the dynamic search query builder, the store-side meaning of the
generated query, the paginated ShipStation fetch, the idempotent
upsert batch, the status-update batch and the tracking-URL chunker.

External collaborators (the D1 store, the HTTP client, the clock and
the base64 encoder) are modelled explicitly where a claim needs them;
every definition carries a pointer to the source lines it embeds.
-/

namespace UspsTracking

/-- Row of the tracking_numbers table (src/.schema.sql; interface
TrackingNumber in src/src/index.ts lines 21-27).  order_number is
nullable; all other columns are non-null text. -/
structure TrackingRow where
  tracking_number : String
  order_number : Option String
  status : String
  created_at : String
  updated_at : String
  deriving DecidableEq, Repr

/-- SQLite compares TEXT values bytewise; on the character lists of the
datetime strings this plant stores, that is lexicographic order by code
point, which this executable comparison implements. -/
def lexLe : List Char → List Char → Bool
  | [], _ => true
  | _ :: _, [] => false
  | a :: as, b :: bs =>
    decide (a.toNat < b.toNat) || (decide (a.toNat = b.toNat) && lexLe as bs)

theorem lexLe_total : ∀ x y, lexLe x y = true ∨ lexLe y x = true
  | [], _ => Or.inl rfl
  | _ :: _, [] => Or.inr rfl
  | a :: as, b :: bs => by
    simp only [lexLe, Bool.or_eq_true, Bool.and_eq_true, decide_eq_true_eq]
    rcases Nat.lt_trichotomy a.toNat b.toNat with h | h | h
    · exact Or.inl (Or.inl h)
    · rcases lexLe_total as bs with ih | ih
      · exact Or.inl (Or.inr ⟨h, ih⟩)
      · exact Or.inr (Or.inr ⟨h.symm, ih⟩)
    · exact Or.inr (Or.inl h)

theorem lexLe_trans : ∀ x y z, lexLe x y = true → lexLe y z = true → lexLe x z = true
  | [], _, _, _, _ => rfl
  | a :: as, b :: bs, c :: cs, h1, h2 => by
    simp only [lexLe, Bool.or_eq_true, Bool.and_eq_true, decide_eq_true_eq] at h1 h2 ⊢
    rcases h1 with h1 | ⟨h1e, h1r⟩
    · rcases h2 with h2 | ⟨h2e, h2r⟩
      · exact Or.inl (h1.trans h2)
      · exact Or.inl (h2e ▸ h1)
    · rcases h2 with h2 | ⟨h2e, h2r⟩
      · exact Or.inl (h1e ▸ h2)
      · exact Or.inr ⟨h1e.trans h2e, lexLe_trans as bs cs h1r h2r⟩
  | _ :: _, [], _, h1, _ => by simp [lexLe] at h1
  | _ :: _, _ :: _, [], _, h2 => by simp [lexLe] at h2

/-- Substring containment: the meaning of the SQL pattern match
col LIKE '%' || v || '%' for a wildcard-free v. -/
def strContains (s v : String) : Bool := decide (v.data <:+: s.data)

/-- Interface SearchParams (src/src/index.ts lines 49-55): up to five
optional raw query-parameter values. -/
structure SearchParams where
  tracking_number : Option String := none
  order_number : Option String := none
  status : Option String := none
  created_after : Option String := none
  created_before : Option String := none
  deriving DecidableEq, Repr

/-- Composition of the normalisation at src/src/index.ts lines 132-136
(searchParams.get(k) or undefined) with the JS truthiness guards at
lines 143, 153, 163, 169, 174: an absent or empty-string parameter
contributes nothing to the query. -/
def presentValue : Option String → Option String
  | none => none
  | some v => if v = "" then none else some v

/-- Return value of parseSearchValue (src/src/index.ts line 122). -/
structure ParsedSearch where
  operation : String
  value : String
  deriving DecidableEq, Repr

/-- parseSearchValue (src/src/index.ts lines 122-127): a leading
exclamation mark selects the inverted operation and is stripped from
the value.  startsWith('!') and substring(1) are rendered on the
character list of the string. -/
def parseSearchValue (value : String) : ParsedSearch :=
  match value.data with
  | '!' :: rest => ⟨"!=", ⟨rest⟩⟩
  | _ => ⟨"=", value⟩

/-- SQL fragment and binding contributed by the tracking_number filter
(src/src/index.ts lines 143-151). -/
def tnClause (params : SearchParams) : String × List String :=
  match presentValue params.tracking_number with
  | some v =>
    let p := parseSearchValue v
    (if p.operation == "!=" then " AND tracking_number NOT LIKE ?"
     else " AND tracking_number LIKE ?",
     ["%" ++ p.value ++ "%"])
  | none => ("", [])

/-- SQL fragment and binding contributed by the order_number filter
(src/src/index.ts lines 153-161). -/
def onClause (params : SearchParams) : String × List String :=
  match presentValue params.order_number with
  | some v =>
    let p := parseSearchValue v
    (if p.operation == "!=" then " AND order_number NOT LIKE ?"
     else " AND order_number LIKE ?",
     ["%" ++ p.value ++ "%"])
  | none => ("", [])

/-- SQL fragment and binding contributed by the status filter
(src/src/index.ts lines 163-167); the operation string of
parseSearchValue is spliced into the fragment. -/
def statusClause (params : SearchParams) : String × List String :=
  match presentValue params.status with
  | some v =>
    let p := parseSearchValue v
    (" AND status " ++ p.operation ++ " ?", [p.value])
  | none => ("", [])

/-- SQL fragment and binding contributed by created_after
(src/src/index.ts lines 169-172): fixed text, raw value bound. -/
def afterClause (params : SearchParams) : String × List String :=
  match presentValue params.created_after with
  | some v => (" AND created_at >= datetime(?)", [v])
  | none => ("", [])

/-- SQL fragment and binding contributed by created_before
(src/src/index.ts lines 174-177): fixed text, raw value bound. -/
def beforeClause (params : SearchParams) : String × List String :=
  match presentValue params.created_before with
  | some v => (" AND created_at <= datetime(?)", [v])
  | none => ("", [])

/-- The dynamic query construction of handleSearch (src/src/index.ts
lines 140-179): the five clauses are appended to the base text in
fixed order and their bindings pushed in the same order. -/
def buildSearchQuery (params : SearchParams) : String × List String :=
  let c1 := tnClause params
  let c2 := onClause params
  let c3 := statusClause params
  let c4 := afterClause params
  let c5 := beforeClause params
  ("SELECT * FROM tracking_numbers WHERE 1=1" ++ c1.1 ++ c2.1 ++ c3.1 ++ c4.1 ++ c5.1
     ++ " ORDER BY created_at ASC LIMIT 2000",
   c1.2 ++ c2.2 ++ c3.2 ++ c4.2 ++ c5.2)

/-- The shape of a search request: which of the five filters are
present (after the truthiness normalisation) and, for the three
string-valued filters, whether the raw value begins with an
exclamation mark. -/
structure QueryShape where
  tn_present : Bool
  tn_negated : Bool
  on_present : Bool
  on_negated : Bool
  status_present : Bool
  status_negated : Bool
  after_present : Bool
  before_present : Bool
  deriving DecidableEq, Repr

/-- Whether a supplied raw value begins with the negation marker. -/
def negFlag (f : Option String) : Bool :=
  match presentValue f with
  | some v => (parseSearchValue v).operation == "!="
  | none => false

/-- Shape of a SearchParams value. -/
def shapeOf (p : SearchParams) : QueryShape :=
  ⟨(presentValue p.tracking_number).isSome, negFlag p.tracking_number,
   (presentValue p.order_number).isSome, negFlag p.order_number,
   (presentValue p.status).isSome, negFlag p.status,
   (presentValue p.created_after).isSome, (presentValue p.created_before).isSome⟩

/-- The query text determined by a shape alone. -/
def sqlOfShape (s : QueryShape) : String :=
  "SELECT * FROM tracking_numbers WHERE 1=1"
    ++ (if s.tn_present then
          (if s.tn_negated then " AND tracking_number NOT LIKE ?"
           else " AND tracking_number LIKE ?") else "")
    ++ (if s.on_present then
          (if s.on_negated then " AND order_number NOT LIKE ?"
           else " AND order_number LIKE ?") else "")
    ++ (if s.status_present then
          (if s.status_negated then " AND status != ?" else " AND status = ?") else "")
    ++ (if s.after_present then " AND created_at >= datetime(?)" else "")
    ++ (if s.before_present then " AND created_at <= datetime(?)" else "")
    ++ " ORDER BY created_at ASC LIMIT 2000"

/-- The ordered bound-parameter list as the spec describes it (spec
section 4.1): one entry per supplied filter, in clause order; string
filters bind the marker-stripped value (wrapped in percent signs for
the two substring filters), date filters bind the raw value. -/
def suppliedBindings (p : SearchParams) : List String :=
  (match presentValue p.tracking_number with
   | some v => ["%" ++ (parseSearchValue v).value ++ "%"]
   | none => [])
  ++ (match presentValue p.order_number with
      | some v => ["%" ++ (parseSearchValue v).value ++ "%"]
      | none => [])
  ++ (match presentValue p.status with
      | some v => [(parseSearchValue v).value]
      | none => [])
  ++ (match presentValue p.created_after with
      | some v => [v]
      | none => [])
  ++ (match presentValue p.created_before with
      | some v => [v]
      | none => [])

theorem parseSearchValue_operation (v : String) :
    (parseSearchValue v).operation = "!=" ∨ (parseSearchValue v).operation = "=" := by
  unfold parseSearchValue
  rcases v with ⟨l⟩
  match l with
  | [] => exact Or.inr rfl
  | c :: cs =>
    by_cases h : c = '!'
    · subst h; exact Or.inl rfl
    · simp only []
      split
      · exact Or.inl rfl
      · exact Or.inr rfl

theorem tnClause_sql (p : SearchParams) :
    (tnClause p).1 =
      (if (shapeOf p).tn_present then
        (if (shapeOf p).tn_negated then " AND tracking_number NOT LIKE ?"
         else " AND tracking_number LIKE ?") else "") := by
  unfold tnClause shapeOf negFlag
  cases presentValue p.tracking_number with
  | none => rfl
  | some v => cases h : (parseSearchValue v).operation == "!=" <;> simp [h]

theorem onClause_sql (p : SearchParams) :
    (onClause p).1 =
      (if (shapeOf p).on_present then
        (if (shapeOf p).on_negated then " AND order_number NOT LIKE ?"
         else " AND order_number LIKE ?") else "") := by
  unfold onClause shapeOf negFlag
  cases presentValue p.order_number with
  | none => rfl
  | some v => cases h : (parseSearchValue v).operation == "!=" <;> simp [h]

theorem statusClause_sql (p : SearchParams) :
    (statusClause p).1 =
      (if (shapeOf p).status_present then
        (if (shapeOf p).status_negated then " AND status != ?"
         else " AND status = ?") else "") := by
  unfold statusClause shapeOf negFlag
  cases presentValue p.status with
  | none => rfl
  | some v =>
    rcases parseSearchValue_operation v with h | h <;> simp [h]

theorem afterClause_sql (p : SearchParams) :
    (afterClause p).1 =
      (if (shapeOf p).after_present then " AND created_at >= datetime(?)" else "") := by
  unfold afterClause shapeOf
  cases presentValue p.created_after with
  | none => rfl
  | some v => rfl

theorem beforeClause_sql (p : SearchParams) :
    (beforeClause p).1 =
      (if (shapeOf p).before_present then " AND created_at <= datetime(?)" else "") := by
  unfold beforeClause shapeOf
  cases presentValue p.created_before with
  | none => rfl
  | some v => rfl

/-- The generated query text is a function of the shape alone. -/
theorem buildSearchQuery_sql_eq_shape (p : SearchParams) :
    (buildSearchQuery p).1 = sqlOfShape (shapeOf p) := by
  unfold buildSearchQuery sqlOfShape
  dsimp only
  rw [tnClause_sql, onClause_sql, statusClause_sql, afterClause_sql, beforeClause_sql]

/-- The generated bindings are exactly the supplied values in clause
order. -/
theorem buildSearchQuery_bindings (p : SearchParams) :
    (buildSearchQuery p).2 = suppliedBindings p := by
  unfold buildSearchQuery suppliedBindings tnClause onClause statusClause afterClause beforeClause
  cases presentValue p.tracking_number <;>
    cases presentValue p.order_number <;>
      cases presentValue p.status <;>
        cases presentValue p.created_after <;>
          cases presentValue p.created_before <;> simp

/-- Store-side meaning of the tracking_number clause emitted at
src/src/index.ts lines 143-151: LIKE (resp. NOT LIKE) against the
percent-wrapped value is substring containment (resp. its negation)
for a wildcard-free value. -/
def tnMatches (params : SearchParams) (r : TrackingRow) : Bool :=
  match presentValue params.tracking_number with
  | none => true
  | some v =>
    let p := parseSearchValue v
    if p.operation == "!=" then !(strContains r.tracking_number p.value)
    else strContains r.tracking_number p.value

/-- Store-side meaning of the order_number clause (src/src/index.ts
lines 153-161).  order_number is nullable and in SQL both
col LIKE x and col NOT LIKE x evaluate to NULL, hence non-matching,
when col is NULL. -/
def onMatches (params : SearchParams) (r : TrackingRow) : Bool :=
  match presentValue params.order_number with
  | none => true
  | some v =>
    let p := parseSearchValue v
    match r.order_number with
    | none => false
    | some s =>
      if p.operation == "!=" then !(strContains s p.value)
      else strContains s p.value

/-- Store-side meaning of the status clause (src/src/index.ts lines
163-167): exact equality or inequality of the status text. -/
def statusMatches (params : SearchParams) (r : TrackingRow) : Bool :=
  match presentValue params.status with
  | none => true
  | some v =>
    let p := parseSearchValue v
    if p.operation == "!=" then r.status != p.value else r.status == p.value

/-- Store-side meaning of created_at >= datetime(?) (src/src/index.ts
lines 169-172).  dtNorm is the store's datetime normalisation, an
external collaborator: none models a malformed argument, for which
datetime returns NULL and the comparison does not match. -/
def afterMatches (dtNorm : String → Option String) (params : SearchParams)
    (r : TrackingRow) : Bool :=
  match presentValue params.created_after with
  | none => true
  | some v =>
    match dtNorm v with
    | none => false
    | some d => lexLe d.data r.created_at.data

/-- Store-side meaning of created_at <= datetime(?) (src/src/index.ts
lines 174-177). -/
def beforeMatches (dtNorm : String → Option String) (params : SearchParams)
    (r : TrackingRow) : Bool :=
  match presentValue params.created_before with
  | none => true
  | some v =>
    match dtNorm v with
    | none => false
    | some d => lexLe r.created_at.data d.data

/-- Conjunction of the five WHERE clauses generated by
buildSearchQuery: the predicate the store evaluates on each row. -/
def rowMatches (dtNorm : String → Option String) (params : SearchParams)
    (r : TrackingRow) : Bool :=
  tnMatches params r && onMatches params r && statusMatches params r
    && afterMatches dtNorm params r && beforeMatches dtNorm params r

/-- Comparison underlying ORDER BY created_at ASC. -/
def createdAtLe (r s : TrackingRow) : Prop :=
  lexLe r.created_at.data s.created_at.data = true

instance : DecidableRel createdAtLe :=
  fun _ _ => inferInstanceAs (Decidable (_ = true))

instance : IsTotal TrackingRow createdAtLe :=
  ⟨fun r s => lexLe_total r.created_at.data s.created_at.data⟩

instance : IsTrans TrackingRow createdAtLe :=
  ⟨fun r s t => lexLe_trans r.created_at.data s.created_at.data t.created_at.data⟩

/-- Store-side evaluation of the full generated query
(src/src/index.ts lines 140-182) against a table state: keep the rows
satisfying the WHERE conjunction, order them by created_at ascending,
and truncate to the LIMIT of 2000 rows. -/
def runSearch (dtNorm : String → Option String) (params : SearchParams)
    (db : List TrackingRow) : List TrackingRow :=
  ((db.filter (rowMatches dtNorm params)).insertionSort createdAtLe).take 2000

/-- All five filters absent after normalisation. -/
def noFilters (p : SearchParams) : Prop :=
  presentValue p.tracking_number = none ∧ presentValue p.order_number = none
    ∧ presentValue p.status = none ∧ presentValue p.created_after = none
    ∧ presentValue p.created_before = none

/-- Success payload of the search endpoint (src/src/index.ts lines
184-187). -/
structure SearchSuccess where
  results : List TrackingRow
  count : Nat
  deriving DecidableEq, Repr

/-- Error payload plus HTTP status of a failing endpoint. -/
structure ErrorResponse where
  error : String
  status : Nat
  deriving DecidableEq, Repr

/-- Fallback text of the search catch block (src/src/index.ts line 195). -/
def searchFailureMessage : String := "Failed to search tracking numbers"

/-- Response construction of handleSearch (src/src/index.ts lines
182-198) as a function of the store call's outcome; a store failure
carries the thrown error's optional message, and the catch block
answers with (error.message or the fallback text) and HTTP 500. -/
def handleSearchResponse (storeOutcome : Except (Option String) (List TrackingRow)) :
    Except ErrorResponse SearchSuccess :=
  match storeOutcome with
  | .ok rows => .ok ⟨rows, rows.length⟩
  | .error m =>
    .error ⟨(match m with
             | some s => if s = "" then searchFailureMessage else s
             | none => searchFailureMessage), 500⟩

/-- Interface StatusUpdate (src/src/index.ts lines 34-37). -/
structure StatusUpdate where
  tracking_number : String
  status : String
  deriving DecidableEq, Repr

/-- Store-side effect of one bound UPDATE statement of the batch
(src/src/index.ts lines 239-248): every row whose tracking_number
equals the bound key receives the bound status and a refreshed
updated_at; all other rows and all other columns are untouched. -/
def applyStatusUpdate (now : String) (db : List TrackingRow) (u : StatusUpdate) :
    List TrackingRow :=
  db.map fun r =>
    if r.tracking_number == u.tracking_number then
      { r with status := u.status, updated_at := now }
    else r

/-- handleStatusUpdates (src/src/index.ts lines 234-262): the batch is
built by mapping each update to its bound (status, tracking_number)
pair and is always submitted; the store executes the statements in
array order.  First component: the submitted batch. -/
def handleStatusUpdates (updates : List StatusUpdate) (now : String)
    (db : List TrackingRow) : Option (List (String × String)) × List TrackingRow :=
  (some (updates.map fun u => (u.status, u.tracking_number)),
   updates.foldl (applyStatusUpdate now) db)

/-- Status carried by the last entry of updates whose tracking_number
equals tn, if any. -/
def lastStatusFor : List StatusUpdate → String → Option String
  | [], _ => none
  | u :: rest, tn =>
    match lastStatusFor rest tn with
    | some s => some s
    | none => if u.tracking_number == tn then some u.status else none

/-- Interface ShipmentData (src/src/index.ts lines 29-32): the
projected shipment record handed from the fetcher to the upsert. -/
structure ShipmentData where
  trackingNumber : String
  orderNumber : String
  deriving DecidableEq, Repr

/-- Store-side effect of one statement of the upsert batch
(src/src/index.ts lines 317-321 with src/.schema.sql): INSERT with
ON CONFLICT(tracking_number) DO NOTHING appends a fresh row with
status pending, created_at now and the defaulted updated_at now,
unless a row with that tracking_number already exists, in which case
nothing changes. -/
def insertOrIgnore (now : String) (db : List TrackingRow) (s : ShipmentData) :
    List TrackingRow :=
  if db.any (fun r => r.tracking_number == s.trackingNumber) then db
  else db ++ [⟨s.trackingNumber, some s.orderNumber, "pending", now, now⟩]

/-- storeNewTrackingNumbers (src/src/index.ts lines 314-329): an empty
input returns before preparing anything; otherwise each shipment is
mapped to its bound (trackingNumber, orderNumber) pair and the batch
is submitted.  First component: the submitted batch, none when the
empty-input guard fired. -/
def storeNewTrackingNumbers (shipments : List ShipmentData) (now : String)
    (db : List TrackingRow) : Option (List (String × String)) × List TrackingRow :=
  if shipments.length = 0 then (none, db)
  else (some (shipments.map fun s => (s.trackingNumber, s.orderNumber)),
        shipments.foldl (insertOrIgnore now) db)

/-- Carrier URL prefix (src/src/index.ts line 217). -/
def uspsUrlPrefix : String :=
  "https://tools.usps.com/go/TrackConfirmAction.action?tLabels="

/-- The chunking loop of handleGetTrackingUrls (src/src/index.ts lines
214-219): i = 0, 30, 60, ... each iteration slices the next at most 30
identifiers.  Rendered as recursion on the remaining list with a fuel
bound; fuel = length of the list always suffices because every
iteration consumes at least one element. -/
def chunksGo : Nat → List String → List (List String)
  | _, [] => []
  | 0, _ :: _ => []
  | fuel + 1, x :: xs => (x :: xs).take 30 :: chunksGo fuel ((x :: xs).drop 30)

/-- Partition into consecutive groups of at most 30. -/
def chunks30 (l : List String) : List (List String) := chunksGo l.length l

/-- The eligible identifiers of handleGetTrackingUrls (src/src/index.ts
lines 204-211): rows whose status differs from the literal delivered,
in store retrieval order, capped at the configured row limit (2000 in
src/src/index.ts line 208, 300 in the variants of src/unnamed/part_000),
projected to their tracking_number. -/
def eligibleTrackingNumbers (rowCap : Nat) (db : List TrackingRow) : List String :=
  ((db.filter (fun r => r.status != "delivered")).take rowCap).map
    (fun r => r.tracking_number)

/-- handleGetTrackingUrls (src/src/index.ts lines 201-228): one URL per
chunk, the chunk joined with the literal separator and appended to the
carrier prefix. -/
def handleGetTrackingUrls (rowCap : Nat) (db : List TrackingRow) : List String :=
  (chunks30 (eligibleTrackingNumbers rowCap db)).map
    (fun chunk => uspsUrlPrefix ++ String.intercalate "%2C" chunk)

/-- One raw shipment record of a ShipStation page (src/src/index.ts
lines 40-43). -/
structure RawShipment where
  trackingNumber : String
  orderNumber : String
  deriving DecidableEq, Repr

/-- Parsed JSON body of one ShipStation page (interface
ShipStationResponse, src/src/index.ts lines 39-47); shipments = none
models a body lacking the shipments field. -/
structure ShipStationResponse where
  shipments : Option (List RawShipment)
  total : Nat
  page : Nat
  pages : Nat
  deriving DecidableEq, Repr

/-- Transport-level response of the external HTTP client for one GET. -/
structure HttpResponse where
  ok : Bool
  status : Nat
  body : String
  payload : ShipStationResponse
  deriving DecidableEq, Repr

/-- One outbound request: its URL and the basic-auth credential it
carries. -/
structure HttpRequest where
  url : String
  credentials : String
  deriving DecidableEq, Repr

/-- Message thrown at src/src/index.ts line 275 for a non-success
transport status. -/
def shipStationErrorMsg (status : Nat) (body : String) : String :=
  "ShipStation API error: " ++ toString status ++ " - " ++ body

/-- Message thrown at src/src/index.ts line 280 for a body lacking the
shipments field. -/
def invalidFormatMsg : String := "Invalid response format: missing shipments array"

/-- fetchShipStationPage (src/src/index.ts lines 264-284) applied to
the transport response for its URL: a non-success status throws the
message embedding status code and body; a success body without the
shipments field throws the malformed-response message; otherwise the
parsed payload is returned. -/
def fetchShipStationPage (resp : HttpResponse) : Except String ShipStationResponse :=
  if resp.ok = false then .error (shipStationErrorMsg resp.status resp.body)
  else match resp.payload.shipments with
    | none => .error invalidFormatMsg
    | some _ => .ok resp.payload

/-- Modelled from the spec: the platform base64 encoder btoa used at
src/src/index.ts line 292 is not part of this repository; it is
represented as an injective tagging of its input, which the claims
only ever compare for equality. -/
def btoa (s : String) : String := "base64(" ++ s ++ ")"

/-- URL of page n at src/src/index.ts line 302. -/
def pageUrl (baseUrl : String) (page : Nat) : String :=
  baseUrl ++ "&page=" ++ toString page

/-- Base URL built at src/src/index.ts line 293. -/
def shipStationBase (dateStr : String) : String :=
  "https://ssapi.shipstation.com/shipments?shipDateStart=" ++ dateStr

/-- The page loop of fetchNewShipments (src/src/index.ts lines
300-306): pages are visited strictly in list order, each one appending
its shipments to the accumulator; the first failing page aborts the
whole loop with its error.  The second component records every issued
request in order. -/
def fetchPagesLoop (net : String → HttpResponse) (baseUrl credentials : String) :
    List Nat → List RawShipment → List HttpRequest →
      Except String (List RawShipment) × List HttpRequest
  | [], acc, log => (.ok acc, log)
  | p :: rest, acc, log =>
    let url := pageUrl baseUrl p
    match fetchShipStationPage (net url) with
    | .error e => (.error e, log ++ [⟨url, credentials⟩])
    | .ok pageData =>
      fetchPagesLoop net baseUrl credentials rest
        (acc ++ pageData.shipments.getD []) (log ++ [⟨url, credentials⟩])

/-- fetchNewShipments (src/src/index.ts lines 286-312).  net maps each
request URL to the transport response the external API answers with;
dateStr stands for the cutoff date computed from the external clock at
lines 287-289.  The credential is computed once, before any request,
and handed unchanged to every page request.  On success every
accumulated shipment is projected to its two fields; the second
component is the ordered log of issued requests. -/
def fetchNewShipments (net : String → HttpResponse)
    (apiKey apiSecret dateStr : String) :
    Except String (List ShipmentData) × List HttpRequest :=
  let credentials := btoa (apiKey ++ ":" ++ apiSecret)
  let baseUrl := shipStationBase dateStr
  match fetchShipStationPage (net baseUrl) with
  | .error e => (.error e, [⟨baseUrl, credentials⟩])
  | .ok firstPageData =>
    let allShipments := firstPageData.shipments.getD []
    let (res, log) :=
      if firstPageData.pages > 1 then
        fetchPagesLoop net baseUrl credentials
          (List.range' 2 (firstPageData.pages - 1)) allShipments
          [⟨baseUrl, credentials⟩]
      else (.ok allShipments, [⟨baseUrl, credentials⟩])
    (match res with
     | .ok l => .ok (l.map fun s => ⟨s.trackingNumber, s.orderNumber⟩)
     | .error e => .error e,
     log)

/-- Shipments list declared by the response for page p, page 1 living
at the base URL and later pages at the page-suffixed URL; used to
state the concatenation the claims describe. -/
def pageShipments (net : String → HttpResponse) (dateStr : String) (p : Nat) :
    List RawShipment :=
  ((net (if p = 1 then shipStationBase dateStr
         else pageUrl (shipStationBase dateStr) p)).payload.shipments).getD []

/-! Claim theorems. -/

/-- C1: the SQL text produced by the search query builder contains no
user-supplied filter value: every supplied value reaches the store
only through the ordered bound-parameter list, and the generated query
text depends only on which of the five keys are present and whether
each string-valued filter begins with an exclamation mark — two
requests differing only in filter values produce identical query text. -/
theorem searchQuery_text_independent_of_values (p q : SearchParams)
    (h : shapeOf p = shapeOf q) :
    (buildSearchQuery p).1 = (buildSearchQuery q).1
      ∧ (buildSearchQuery p).2 = suppliedBindings p := by
  refine ⟨?_, buildSearchQuery_bindings p⟩
  rw [buildSearchQuery_sql_eq_shape, buildSearchQuery_sql_eq_shape, h]

/-- Witness for C1 at two concrete requests differing only in values. -/
theorem searchQuery_text_independent_of_values_witness :
    (buildSearchQuery ⟨some "9400ABC", none, some "!delivered", some "2024-01-01", none⟩).1
      = (buildSearchQuery ⟨some "17", none, some "!pending", some "2030-12-31", none⟩).1 :=
  (searchQuery_text_independent_of_values
    ⟨some "9400ABC", none, some "!delivered", some "2024-01-01", none⟩
    ⟨some "17", none, some "!pending", some "2030-12-31", none⟩ (by decide)).1

theorem mem_runSearch_matches (dtNorm : String → Option String)
    (params : SearchParams) (db : List TrackingRow) (r : TrackingRow)
    (h : r ∈ runSearch dtNorm params db) : rowMatches dtNorm params r = true := by
  unfold runSearch at h
  have h1 := List.mem_of_mem_take h
  have h2 := (List.mem_insertionSort createdAtLe).mp h1
  exact (List.mem_filter.mp h2).2

theorem rowMatches_noFilters (dtNorm : String → Option String)
    (params : SearchParams) (h : noFilters params) (r : TrackingRow) :
    rowMatches dtNorm params r = true := by
  obtain ⟨h1, h2, h3, h4, h5⟩ := h
  unfold rowMatches tnMatches onMatches statusMatches afterMatches beforeMatches
  rw [h1, h2, h3, h4, h5]
  rfl

/-- C2: each row returned by the search satisfies every supplied
filter clause; every stored row satisfying all supplied clauses
appears in the result unless the 2000-row cap was reached before it
(the result is then full and every returned row sorts no later);
the results are ordered by created_at ascending; and with no filters
supplied all rows, up to 2000 in created_at order, are returned. -/
theorem runSearch_sound_complete_ordered (dtNorm : String → Option String)
    (params : SearchParams) (db : List TrackingRow) :
    (∀ r ∈ runSearch dtNorm params db, rowMatches dtNorm params r = true)
    ∧ (∀ r ∈ db, rowMatches dtNorm params r = true →
        r ∈ runSearch dtNorm params db
          ∨ ((runSearch dtNorm params db).length = 2000
             ∧ ∀ x ∈ runSearch dtNorm params db, createdAtLe x r))
    ∧ List.Sorted createdAtLe (runSearch dtNorm params db)
    ∧ (noFilters params →
        runSearch dtNorm params db = (db.insertionSort createdAtLe).take 2000) := by
  refine ⟨fun r h => mem_runSearch_matches dtNorm params db r h, ?_, ?_, ?_⟩
  · intro r hmem hmatch
    set sorted := (db.filter (rowMatches dtNorm params)).insertionSort createdAtLe with hs
    have hr : r ∈ sorted :=
      (List.mem_insertionSort createdAtLe).mpr (List.mem_filter.mpr ⟨hmem, hmatch⟩)
    by_cases htake : r ∈ sorted.take 2000
    · exact Or.inl htake
    · have hdrop : r ∈ sorted.drop 2000 := by
        rcases List.mem_append.mp ((List.take_append_drop 2000 sorted) ▸ hr) with h' | h'
        · exact absurd h' htake
        · exact h'
      refine Or.inr ⟨?_, ?_⟩
      · have hne : sorted.drop 2000 ≠ [] := fun hnil => by simp [hnil] at hdrop
        have hlen : 2000 < sorted.length := by
          have := List.length_drop 2000 sorted
          rcases Nat.lt_or_ge 2000 sorted.length with h' | h'
          · exact h'
          · exact absurd (List.drop_eq_nil_of_le h') hne
        unfold runSearch
        rw [← hs, List.length_take]
        omega
      · intro x hx
        exact (List.sorted_insertionSort createdAtLe _).rel_of_mem_take_of_mem_drop hx hdrop
  · exact List.Pairwise.sublist (List.take_sublist 2000 _)
      (List.sorted_insertionSort createdAtLe _)
  · intro h
    unfold runSearch
    rw [List.filter_eq_self.mpr (fun a _ => rowMatches_noFilters dtNorm params h a)]

/-- Sample store rows used by concrete witnesses. -/
def row1 : TrackingRow := ⟨"T1", some "O1", "pending", "2024-01-01", "2024-01-01"⟩

def row2 : TrackingRow := ⟨"T2", none, "in_transit", "2024-01-02", "2024-01-02"⟩

def row3 : TrackingRow := ⟨"T3", none, "delivered", "2024-01-03", "2024-01-03"⟩

def row4 : TrackingRow := ⟨"T4", none, "out_for_delivery", "2024-01-04", "2024-01-04"⟩

def sampleDb : List TrackingRow := [row2, row1, row3, row4]

/-- Identity datetime normalisation used by concrete witnesses. -/
def dtId : String → Option String := fun s => some s

/-- Witness for C2: a concrete matching row is found, and the
filterless search returns the whole store sorted. -/
theorem runSearch_sound_complete_ordered_witness :
    (row1 ∈ runSearch dtId ⟨none, none, some "pending", none, none⟩ sampleDb
      ∨ ((runSearch dtId ⟨none, none, some "pending", none, none⟩ sampleDb).length = 2000
         ∧ ∀ x ∈ runSearch dtId ⟨none, none, some "pending", none, none⟩ sampleDb,
             createdAtLe x row1))
    ∧ runSearch dtId ⟨none, none, none, none, none⟩ sampleDb
        = (sampleDb.insertionSort createdAtLe).take 2000 :=
  ⟨(runSearch_sound_complete_ordered dtId ⟨none, none, some "pending", none, none⟩
      sampleDb).2.1 row1 (by decide) (by decide),
   (runSearch_sound_complete_ordered dtId ⟨none, none, none, none, none⟩
      sampleDb).2.2.2 ⟨rfl, rfl, rfl, rfl, rfl⟩⟩

theorem parseSearchValue_neg (v X : String) (h : v.data = '!' :: X.data) :
    parseSearchValue v = ⟨"!=", X⟩ := by
  unfold parseSearchValue
  rw [h]
  rfl

theorem rowMatches_parts {dtNorm : String → Option String} {params : SearchParams}
    {r : TrackingRow} (h : rowMatches dtNorm params r = true) :
    tnMatches params r = true ∧ onMatches params r = true
      ∧ statusMatches params r = true ∧ afterMatches dtNorm params r = true
      ∧ beforeMatches dtNorm params r = true := by
  unfold rowMatches at h
  simp only [Bool.and_eq_true] at h
  tauto

/-- C3: a leading exclamation mark on a string-valued filter strips the
marker from the compared value and inverts the comparison — for a
status filter no returned row's status equals the remainder, and for a
tracking_number or order_number filter no returned row's field
contains the remainder as a substring; the two date-range filters
never receive this treatment: their clause text is fixed and the raw
value, marker included, is bound unchanged. -/
theorem negated_filters_invert_comparison (dtNorm : String → Option String)
    (params : SearchParams) (db : List TrackingRow) (X : String) :
    (∀ v, presentValue params.status = some v → v.data = '!' :: X.data →
       ∀ r ∈ runSearch dtNorm params db, r.status ≠ X)
    ∧ (∀ v, presentValue params.tracking_number = some v → v.data = '!' :: X.data →
       ∀ r ∈ runSearch dtNorm params db, strContains r.tracking_number X = false)
    ∧ (∀ v, presentValue params.order_number = some v → v.data = '!' :: X.data →
       ∀ r ∈ runSearch dtNorm params db, ∀ s, r.order_number = some s →
         strContains s X = false)
    ∧ (∀ v, presentValue params.created_after = some v →
         afterClause params = (" AND created_at >= datetime(?)", [v]))
    ∧ (∀ v, presentValue params.created_before = some v →
         beforeClause params = (" AND created_at <= datetime(?)", [v])) := by
  refine ⟨?_, ?_, ?_, ?_, ?_⟩
  · intro v hv hneg r hr
    have hm := (rowMatches_parts (mem_runSearch_matches dtNorm params db r hr)).2.2.1
    unfold statusMatches at hm
    rw [hv] at hm
    simp only [parseSearchValue_neg v X hneg] at hm
    simp only [beq_self_eq_true, if_true] at hm
    exact bne_iff_ne.mp (by simpa using hm)
  · intro v hv hneg r hr
    have hm := (rowMatches_parts (mem_runSearch_matches dtNorm params db r hr)).1
    unfold tnMatches at hm
    rw [hv] at hm
    simp only [parseSearchValue_neg v X hneg] at hm
    simp only [beq_self_eq_true, if_true] at hm
    simpa using hm
  · intro v hv hneg r hr s hs
    have hm := (rowMatches_parts (mem_runSearch_matches dtNorm params db r hr)).2.1
    unfold onMatches at hm
    rw [hv] at hm
    simp only [parseSearchValue_neg v X hneg] at hm
    rw [hs] at hm
    simp only [beq_self_eq_true, if_true] at hm
    simpa using hm
  · intro v hv
    unfold afterClause
    rw [hv]
  · intro v hv
    unfold beforeClause
    rw [hv]

/-- Witness for C3 at a concrete negated request over a concrete
store. -/
theorem negated_filters_invert_comparison_witness :
    row1.status ≠ "Z"
    ∧ strContains row1.tracking_number "Z" = false
    ∧ strContains "O1" "Z" = false
    ∧ afterClause ⟨some "!Z", some "!Z", some "!Z", some "!x", none⟩
        = (" AND created_at >= datetime(?)", ["!x"]) :=
  ⟨(negated_filters_invert_comparison dtId ⟨some "!Z", some "!Z", some "!Z", some "!x", none⟩
      [row1] "Z").1 "!Z" rfl rfl row1 (by decide),
   (negated_filters_invert_comparison dtId ⟨some "!Z", some "!Z", some "!Z", some "!x", none⟩
      [row1] "Z").2.1 "!Z" rfl rfl row1 (by decide),
   (negated_filters_invert_comparison dtId ⟨some "!Z", some "!Z", some "!Z", some "!x", none⟩
      [row1] "Z").2.2.1 "!Z" rfl rfl row1 (by decide) "O1" rfl,
   (negated_filters_invert_comparison dtId ⟨some "!Z", some "!Z", some "!Z", some "!x", none⟩
      [row1] "Z").2.2.2.1 "!x" rfl⟩

/-- Whether some row of the table carries the given tracking number. -/
def hasTn (db : List TrackingRow) (tn : String) : Bool :=
  db.any (fun r => r.tracking_number == tn)

theorem insertOrIgnore_of_hasTn (now : String) (db : List TrackingRow)
    (s : ShipmentData) (h : hasTn db s.trackingNumber = true) :
    insertOrIgnore now db s = db := by
  unfold insertOrIgnore
  unfold hasTn at h
  rw [if_pos h]

theorem insertOrIgnore_of_not_hasTn (now : String) (db : List TrackingRow)
    (s : ShipmentData) (h : hasTn db s.trackingNumber = false) :
    insertOrIgnore now db s
      = db ++ [⟨s.trackingNumber, some s.orderNumber, "pending", now, now⟩] := by
  unfold insertOrIgnore
  unfold hasTn at h
  rw [if_neg (by simp [h])]

theorem hasTn_insertOrIgnore (now : String) (db : List TrackingRow)
    (s : ShipmentData) (tn : String) (h : hasTn db tn = true) :
    hasTn (insertOrIgnore now db s) tn = true := by
  cases hc : hasTn db s.trackingNumber
  · rw [insertOrIgnore_of_not_hasTn now db s hc]
    unfold hasTn at h ⊢
    simp [List.any_append, h]
  · rw [insertOrIgnore_of_hasTn now db s hc]
    exact h

theorem hasTn_insertOrIgnore_self (now : String) (db : List TrackingRow)
    (s : ShipmentData) :
    hasTn (insertOrIgnore now db s) s.trackingNumber = true := by
  cases hc : hasTn db s.trackingNumber
  · rw [insertOrIgnore_of_not_hasTn now db s hc]
    unfold hasTn
    simp [List.any_append]
  · rw [insertOrIgnore_of_hasTn now db s hc]
    exact hc

theorem foldl_insertOrIgnore_hasTn_mono (now : String) :
    ∀ (L : List ShipmentData) (db : List TrackingRow) (tn : String),
      hasTn db tn = true →
      hasTn (L.foldl (insertOrIgnore now) db) tn = true
  | [], _, _, h => h
  | s :: rest, db, tn, h =>
    foldl_insertOrIgnore_hasTn_mono now rest (insertOrIgnore now db s) tn
      (hasTn_insertOrIgnore now db s tn h)

theorem foldl_insertOrIgnore_hasTn (now : String) :
    ∀ (L : List ShipmentData) (db : List TrackingRow) (s : ShipmentData),
      s ∈ L → hasTn (L.foldl (insertOrIgnore now) db) s.trackingNumber = true
  | [], _, _, h => absurd h (List.not_mem_nil _)
  | t :: rest, db, s, h => by
    rcases List.mem_cons.mp h with h' | h'
    · subst h'
      exact foldl_insertOrIgnore_hasTn_mono now rest (insertOrIgnore now db s) _
        (hasTn_insertOrIgnore_self now db s)
    · exact foldl_insertOrIgnore_hasTn now rest (insertOrIgnore now db t) s h'

theorem foldl_insertOrIgnore_noop (now : String) :
    ∀ (L : List ShipmentData) (db : List TrackingRow),
      (∀ s ∈ L, hasTn db s.trackingNumber = true) →
      L.foldl (insertOrIgnore now) db = db
  | [], _, _ => rfl
  | s :: rest, db, h => by
    rw [List.foldl_cons, insertOrIgnore_of_hasTn now db s (h s (List.mem_cons_self s rest))]
    exact foldl_insertOrIgnore_noop now rest db (fun t ht => h t (List.mem_cons_of_mem s ht))

theorem foldl_insertOrIgnore_append (now : String) :
    ∀ (L : List ShipmentData) (db : List TrackingRow),
      ∃ newRows, L.foldl (insertOrIgnore now) db = db ++ newRows
  | [], db => ⟨[], (List.append_nil db).symm⟩
  | s :: rest, db => by
    rw [List.foldl_cons]
    cases hc : hasTn db s.trackingNumber
    · rw [insertOrIgnore_of_not_hasTn now db s hc]
      obtain ⟨newRows, hnew⟩ :=
        foldl_insertOrIgnore_append now rest
          (db ++ [⟨s.trackingNumber, some s.orderNumber, "pending", now, now⟩])
      exact ⟨⟨s.trackingNumber, some s.orderNumber, "pending", now, now⟩ :: newRows,
        by rw [hnew, List.append_assoc]; rfl⟩
    · rw [insertOrIgnore_of_hasTn now db s hc]
      exact foldl_insertOrIgnore_append now rest db

/-- One row per tracking number: pairwise distinct keys. -/
def distinctTns (db : List TrackingRow) : Prop :=
  db.Pairwise (fun r s => r.tracking_number ≠ s.tracking_number)

instance (db : List TrackingRow) : Decidable (distinctTns db) :=
  List.instDecidablePairwise _

theorem insertOrIgnore_distinct (now : String) (db : List TrackingRow)
    (s : ShipmentData) (h : distinctTns db) :
    distinctTns (insertOrIgnore now db s) := by
  cases hc : hasTn db s.trackingNumber
  · rw [insertOrIgnore_of_not_hasTn now db s hc]
    unfold distinctTns
    rw [List.pairwise_append]
    refine ⟨h, List.pairwise_singleton _ _, ?_⟩
    intro a ha b hb
    have hb' : b = (⟨s.trackingNumber, some s.orderNumber, "pending", now, now⟩ : TrackingRow) := by
      simpa using hb
    subst hb'
    have hf : (a.tracking_number == s.trackingNumber) = false := by
      by_contra hne
      have ht : (a.tracking_number == s.trackingNumber) = true := by
        cases hx : a.tracking_number == s.trackingNumber
        · exact absurd hx hne
        · rfl
      have : hasTn db s.trackingNumber = true := by
        unfold hasTn
        exact List.any_eq_true.mpr ⟨a, ha, ht⟩
      rw [hc] at this
      exact Bool.false_ne_true this
    simpa using hf
  · rw [insertOrIgnore_of_hasTn now db s hc]
    exact h

theorem foldl_insertOrIgnore_distinct (now : String) :
    ∀ (L : List ShipmentData) (db : List TrackingRow),
      distinctTns db → distinctTns (L.foldl (insertOrIgnore now) db)
  | [], _, h => h
  | s :: rest, db, h =>
    foldl_insertOrIgnore_distinct now rest (insertOrIgnore now db s)
      (insertOrIgnore_distinct now db s h)

theorem storeNewTrackingNumbers_snd (L : List ShipmentData) (now : String)
    (db : List TrackingRow) :
    (storeNewTrackingNumbers L now db).2 = L.foldl (insertOrIgnore now) db := by
  by_cases hL : L.length = 0
  · obtain rfl := List.length_eq_zero.mp hL
    rfl
  · unfold storeNewTrackingNumbers
    rw [if_neg hL]

/-- C6: storeNewTrackingNumbers is idempotent — a second run with the
same list, at any later time, leaves the store state exactly as the
first run left it; the first run only appends rows, so every existing
row is preserved untouched; one-row-per-tracking_number is preserved;
and the empty list submits no batch at all. -/
theorem storeNewTrackingNumbers_idempotent (L : List ShipmentData)
    (db : List TrackingRow) (now1 now2 : String) :
    (storeNewTrackingNumbers L now2 (storeNewTrackingNumbers L now1 db).2).2
        = (storeNewTrackingNumbers L now1 db).2
    ∧ (∃ newRows, (storeNewTrackingNumbers L now1 db).2 = db ++ newRows)
    ∧ (distinctTns db → distinctTns (storeNewTrackingNumbers L now1 db).2)
    ∧ storeNewTrackingNumbers [] now1 db = (none, db) := by
  refine ⟨?_, ?_, ?_, rfl⟩
  · rw [storeNewTrackingNumbers_snd, storeNewTrackingNumbers_snd]
    exact foldl_insertOrIgnore_noop now2 L _
      (fun s hs => foldl_insertOrIgnore_hasTn now1 L db s hs)
  · rw [storeNewTrackingNumbers_snd]
    exact foldl_insertOrIgnore_append now1 L db
  · intro h
    rw [storeNewTrackingNumbers_snd]
    exact foldl_insertOrIgnore_distinct now1 L db h

/-- Witness for C6 on a concrete duplicate-bearing batch. -/
theorem storeNewTrackingNumbers_idempotent_witness :
    distinctTns
      (storeNewTrackingNumbers [⟨"T1", "O1"⟩, ⟨"T9", "O9"⟩, ⟨"T9", "O9"⟩] "2024-02-01"
        sampleDb).2 :=
  (storeNewTrackingNumbers_idempotent [⟨"T1", "O1"⟩, ⟨"T9", "O9"⟩, ⟨"T9", "O9"⟩]
    sampleDb "2024-02-01" "2024-03-01").2.2.1 (by decide)

theorem lastStatusFor_cons (u : StatusUpdate) (rest : List StatusUpdate) (tn : String) :
    lastStatusFor (u :: rest) tn
      = match lastStatusFor rest tn with
        | some s => some s
        | none => if u.tracking_number == tn then some u.status else none := rfl

theorem foldl_applyStatusUpdate_characterization (now : String) :
    ∀ (updates : List StatusUpdate) (db : List TrackingRow),
      updates.foldl (applyStatusUpdate now) db
        = db.map (fun r =>
            match lastStatusFor updates r.tracking_number with
            | some s => { r with status := s, updated_at := now }
            | none => r)
  | [], db => by
    simp only [List.foldl_nil, lastStatusFor]
    exact (List.map_id' db).symm
  | u :: rest, db => by
    rw [List.foldl_cons,
      foldl_applyStatusUpdate_characterization now rest (applyStatusUpdate now db u)]
    unfold applyStatusUpdate
    rw [List.map_map]
    refine List.map_congr_left ?_
    intro r _
    simp only [Function.comp_apply]
    rcases hL : lastStatusFor rest r.tracking_number with _ | s'
    · rw [lastStatusFor_cons]
      cases hc : r.tracking_number == u.tracking_number
      · have hne : (u.tracking_number == r.tracking_number) = false := by
          cases hx : u.tracking_number == r.tracking_number
          · rfl
          · rw [beq_iff_eq] at hx
            rw [hx, beq_self_eq_true] at hc
            exact Bool.noConfusion hc
        simp [hc, hL, hne]
      · have heq : (u.tracking_number == r.tracking_number) = true := by
          rw [beq_iff_eq] at hc ⊢
          exact hc.symm
        simp [hc, hL, heq]
    · rw [lastStatusFor_cons]
      cases hc : r.tracking_number == u.tracking_number
      · simp [hc, hL]
      · simp [hc, hL]

/-- C7: the status-update batch applies entries in array order, so
when two entries share a tracking_number the row's final status is the
value of the later entry; each applied entry overwrites only the row's
status and refreshes updated_at; and an entry whose tracking_number
matches no stored row affects zero rows and produces no error. -/
theorem handleStatusUpdates_lastWriteWins (updates : List StatusUpdate)
    (now : String) (db : List TrackingRow) :
    (handleStatusUpdates updates now db).2
        = db.map (fun r =>
            match lastStatusFor updates r.tracking_number with
            | some s => { r with status := s, updated_at := now }
            | none => r)
    ∧ (∀ u : StatusUpdate, (∀ r ∈ db, r.tracking_number ≠ u.tracking_number) →
        applyStatusUpdate now db u = db) := by
  refine ⟨foldl_applyStatusUpdate_characterization now updates db, ?_⟩
  intro u h
  unfold applyStatusUpdate
  have hid : ∀ r ∈ db,
      (if (r.tracking_number == u.tracking_number) = true then
        ({ r with status := u.status, updated_at := now } : TrackingRow)
       else r) = r := by
    intro r hr
    rw [if_neg]
    intro hc
    exact h r hr (by simpa using hc)
  rw [List.map_congr_left hid]
  exact List.map_id' db

/-- Witness for C7: a concrete batch with two updates for one tracking
number ends with the later value, and a no-match entry changes
nothing. -/
theorem handleStatusUpdates_lastWriteWins_witness :
    (handleStatusUpdates [⟨"T1", "in_transit"⟩, ⟨"T1", "delivered"⟩] "2024-02-01"
        [row1]).2
      = [row1].map (fun r =>
          match lastStatusFor [⟨"T1", "in_transit"⟩, ⟨"T1", "delivered"⟩]
              r.tracking_number with
          | some s => { r with status := s, updated_at := "2024-02-01" }
          | none => r)
    ∧ applyStatusUpdate "2024-02-01" [row1] ⟨"T9", "delivered"⟩ = [row1] :=
  ⟨(handleStatusUpdates_lastWriteWins [⟨"T1", "in_transit"⟩, ⟨"T1", "delivered"⟩]
      "2024-02-01" [row1]).1,
   (handleStatusUpdates_lastWriteWins [⟨"T1", "in_transit"⟩, ⟨"T1", "delivered"⟩]
      "2024-02-01" [row1]).2 ⟨"T9", "delivered"⟩ (by decide)⟩

/-- C9 counterexample: a store error whose message is a non-empty
string is not surfaced as the generic text — the payload carries the
store's own diagnostic message. -/
theorem searchError_not_generic_cex :
    ¬ (∀ m : Option String,
        handleSearchResponse (.error m) = .error ⟨searchFailureMessage, 500⟩) := by
  intro h
  have hx := h (some "no such column: created_atx")
  unfold handleSearchResponse at hx
  simp only [Except.error.injEq, ErrorResponse.mk.injEq] at hx
  have : ("no such column: created_atx" : String) = searchFailureMessage := by
    rcases hx with ⟨h1, _⟩
    simpa using h1
  exact absurd this (by decide)

/-- C9 amended: the search catch block surfaces the store error's own
message, with HTTP 500, whenever that message is a non-empty string;
the generic fallback text appears only when the error carries no
message or an empty one. -/
theorem searchError_message_passthrough :
    (∀ m : String, m ≠ "" →
       handleSearchResponse (.error (some m)) = .error ⟨m, 500⟩)
    ∧ handleSearchResponse (.error none) = .error ⟨searchFailureMessage, 500⟩
    ∧ handleSearchResponse (.error (some "")) = .error ⟨searchFailureMessage, 500⟩
    ∧ (∀ rows, handleSearchResponse (.ok rows) = .ok ⟨rows, rows.length⟩) := by
  refine ⟨?_, rfl, rfl, fun _ => rfl⟩
  intro m hm
  unfold handleSearchResponse
  dsimp only
  rw [if_neg hm]

/-- Witness for C9 at a concrete store error message. -/
theorem searchError_message_passthrough_witness :
    handleSearchResponse (.error (some "D1_ERROR: boom")) = .error ⟨"D1_ERROR: boom", 500⟩ :=
  searchError_message_passthrough.1 "D1_ERROR: boom" (by decide)

/-- C10: for the empty update list the status-update entry point still
submits a batch — the empty statement list — to the store, while the
upsert path's empty-input guard submits none; in general the submitted
status batch is one statement per entry. -/
theorem emptyUpdates_still_submit_batch (db : List TrackingRow) (now : String) :
    (handleStatusUpdates [] now db).1 = some []
    ∧ (storeNewTrackingNumbers [] now db).1 = none
    ∧ (handleStatusUpdates [] now db).2 = db
    ∧ ∀ updates : List StatusUpdate,
        (handleStatusUpdates updates now db).1
          = some (updates.map fun u => (u.status, u.tracking_number)) :=
  ⟨rfl, rfl, rfl, fun _ => rfl⟩

theorem chunksGo_flatten :
    ∀ (fuel : Nat) (l : List String), l.length ≤ fuel →
      (chunksGo fuel l).flatten = l
  | _, [], _ => by simp [chunksGo]
  | 0, x :: xs, h => absurd h (by simp)
  | fuel + 1, x :: xs, h => by
    unfold chunksGo
    rw [List.flatten_cons,
      chunksGo_flatten fuel ((x :: xs).drop 30)
        (by rw [List.length_drop]; simp at h ⊢; omega)]
    exact List.take_append_drop 30 (x :: xs)

theorem chunksGo_length :
    ∀ (fuel : Nat) (l : List String), l.length ≤ fuel →
      (chunksGo fuel l).length = (l.length + 29) / 30
  | _, [], _ => by simp [chunksGo]
  | 0, x :: xs, h => absurd h (by simp)
  | fuel + 1, x :: xs, h => by
    unfold chunksGo
    rw [List.length_cons,
      chunksGo_length fuel ((x :: xs).drop 30)
        (by rw [List.length_drop]; simp at h ⊢; omega)]
    rw [List.length_drop, List.length_cons]
    omega

theorem chunksGo_chunk_length :
    ∀ (fuel : Nat) (l c : List String), c ∈ chunksGo fuel l → c.length ≤ 30
  | _, [], _, h => by simp [chunksGo] at h
  | 0, _ :: _, _, h => by simp [chunksGo] at h
  | fuel + 1, x :: xs, c, h => by
    unfold chunksGo at h
    rcases List.mem_cons.mp h with h' | h'
    · subst h'
      exact List.length_take_le 30 (x :: xs)
    · exact chunksGo_chunk_length fuel ((x :: xs).drop 30) c h'

/-- C8: on the eligible rows — those whose status differs from the
literal delivered, capped at the configured row limit — the
tracking-urls operation produces exactly ceil(N/30) URLs for N
eligible tracking numbers; the chunks partition the eligible list in
order, each URL is the carrier prefix followed by its chunk of at most
30 identifiers joined by the literal separator, and zero eligible rows
yield an empty URL list. -/
theorem trackingUrls_chunking (rowCap : Nat) (db : List TrackingRow) :
    (handleGetTrackingUrls rowCap db).length
        = ((eligibleTrackingNumbers rowCap db).length + 29) / 30
    ∧ (chunks30 (eligibleTrackingNumbers rowCap db)).flatten
        = eligibleTrackingNumbers rowCap db
    ∧ (∀ u ∈ handleGetTrackingUrls rowCap db,
        ∃ c ∈ chunks30 (eligibleTrackingNumbers rowCap db),
          u = uspsUrlPrefix ++ String.intercalate "%2C" c ∧ c.length ≤ 30)
    ∧ (eligibleTrackingNumbers rowCap db = [] →
        handleGetTrackingUrls rowCap db = []) := by
  refine ⟨?_, ?_, ?_, ?_⟩
  · unfold handleGetTrackingUrls chunks30
    rw [List.length_map]
    exact chunksGo_length _ _ (Nat.le_refl _)
  · exact chunksGo_flatten _ _ (Nat.le_refl _)
  · intro u hu
    unfold handleGetTrackingUrls at hu
    rcases List.mem_map.mp hu with ⟨c, hc, hcu⟩
    exact ⟨c, hc, hcu.symm, chunksGo_chunk_length _ _ c hc⟩
  · intro h
    unfold handleGetTrackingUrls
    rw [h]
    rfl

/-- Witness for C8: the sample store has three undelivered rows, hence
one URL; a store of delivered rows yields none. -/
theorem trackingUrls_chunking_witness :
    (∃ c ∈ chunks30 (eligibleTrackingNumbers 2000 sampleDb),
      uspsUrlPrefix ++ "T2%2CT1%2CT4" = uspsUrlPrefix ++ String.intercalate "%2C" c
        ∧ c.length ≤ 30)
    ∧ handleGetTrackingUrls 2000 [row3] = [] :=
  ⟨(trackingUrls_chunking 2000 sampleDb).2.2.1 (uspsUrlPrefix ++ "T2%2CT1%2CT4")
      (by decide),
   (trackingUrls_chunking 2000 [row3]).2.2.2 (by decide)⟩

theorem fetchShipStationPage_ok {resp : HttpResponse} {d : ShipStationResponse}
    (h : fetchShipStationPage resp = .ok d) :
    d = resp.payload ∧ resp.ok = true ∧ ∃ l, resp.payload.shipments = some l := by
  unfold fetchShipStationPage at h
  by_cases hok : resp.ok = false
  · rw [if_pos hok] at h
    exact absurd h (by simp)
  · rw [if_neg hok] at h
    rcases hs : resp.payload.shipments with _ | l
    · rw [hs] at h
      exact absurd h (by simp)
    · rw [hs] at h
      simp only [Except.ok.injEq] at h
      refine ⟨h.symm, ?_, l, hs ▸ rfl⟩
      revert hok
      cases resp.ok
      · intro hok
        exact absurd rfl hok
      · intro _
        rfl

theorem flatMapCongr {α β : Type} (l : List α) (f g : α → List β)
    (h : ∀ x ∈ l, f x = g x) : l.flatMap f = l.flatMap g := by
  induction l with
  | nil => rfl
  | cons x xs ih =>
    rw [List.flatMap_cons, List.flatMap_cons, h x (List.mem_cons_self x xs),
      ih (fun t ht => h t (List.mem_cons_of_mem x ht))]

theorem fetchPagesLoop_ok (net : String → HttpResponse) (baseUrl credentials : String) :
    ∀ (ps : List Nat) (acc : List RawShipment) (log : List HttpRequest),
      (∀ p ∈ ps, ∃ d, fetchShipStationPage (net (pageUrl baseUrl p)) = .ok d) →
      fetchPagesLoop net baseUrl credentials ps acc log
        = (.ok (acc ++ ps.flatMap
              (fun p => (net (pageUrl baseUrl p)).payload.shipments.getD [])),
           log ++ ps.map (fun p => ⟨pageUrl baseUrl p, credentials⟩))
  | [], acc, log, _ => by simp [fetchPagesLoop]
  | p :: rest, acc, log, h => by
    obtain ⟨d, hd⟩ := h p (List.mem_cons_self p rest)
    obtain ⟨hpayload, -, -⟩ := fetchShipStationPage_ok hd
    unfold fetchPagesLoop
    dsimp only
    rw [hd]
    dsimp only
    rw [fetchPagesLoop_ok net baseUrl credentials rest _ _
      (fun q hq => h q (List.mem_cons_of_mem p hq))]
    rw [hpayload]
    simp [List.flatMap_cons, List.append_assoc]

theorem fetchPagesLoop_err (net : String → HttpResponse) (baseUrl credentials : String) :
    ∀ (good : List Nat) (k : Nat) (rest : List Nat) (acc : List RawShipment)
      (log : List HttpRequest) (e : String),
      (∀ p ∈ good, ∃ d, fetchShipStationPage (net (pageUrl baseUrl p)) = .ok d) →
      fetchShipStationPage (net (pageUrl baseUrl k)) = .error e →
      fetchPagesLoop net baseUrl credentials (good ++ k :: rest) acc log
        = (.error e, log ++ (good ++ [k]).map (fun p => ⟨pageUrl baseUrl p, credentials⟩))
  | [], k, rest, acc, log, e, _, hk => by
    simp only [List.nil_append]
    unfold fetchPagesLoop
    dsimp only
    rw [hk]
    simp
  | g :: gs, k, rest, acc, log, e, h, hk => by
    obtain ⟨d, hd⟩ := h g (List.mem_cons_self g gs)
    simp only [List.cons_append]
    unfold fetchPagesLoop
    dsimp only
    rw [hd]
    dsimp only
    rw [fetchPagesLoop_err net baseUrl credentials gs k rest _ _ e
      (fun q hq => h q (List.mem_cons_of_mem g hq)) hk]
    simp [List.append_assoc]

/-- C4: whenever some page k of the paginated fetch responds with a
non-success transport status or lacks the shipments field — every page
before it having succeeded — fetchNewShipments returns an error,
issues no request for any page after k, and returns no shipment data
at all; a transport failure's error embeds the failing status code and
response body, and a success body lacking the shipments field fails
with the malformed-response message. -/
theorem fetch_aborts_on_failing_page (net : String → HttpResponse)
    (apiKey apiSecret dateStr : String) :
    (∀ e, fetchShipStationPage (net (shipStationBase dateStr)) = .error e →
       fetchNewShipments net apiKey apiSecret dateStr
         = (.error e, [⟨shipStationBase dateStr, btoa (apiKey ++ ":" ++ apiSecret)⟩]))
    ∧ (∀ d k e, fetchShipStationPage (net (shipStationBase dateStr)) = .ok d →
        2 ≤ k → k ≤ d.pages →
        (∀ j, 2 ≤ j → j < k →
          ∃ dj, fetchShipStationPage (net (pageUrl (shipStationBase dateStr) j)) = .ok dj) →
        fetchShipStationPage (net (pageUrl (shipStationBase dateStr) k)) = .error e →
        (fetchNewShipments net apiKey apiSecret dateStr).1 = .error e
          ∧ (fetchNewShipments net apiKey apiSecret dateStr).2
              = ⟨shipStationBase dateStr, btoa (apiKey ++ ":" ++ apiSecret)⟩
                  :: (List.range' 2 (k - 1)).map
                      (fun p => ⟨pageUrl (shipStationBase dateStr) p,
                                 btoa (apiKey ++ ":" ++ apiSecret)⟩))
    ∧ (∀ u, (net u).ok = false →
        fetchShipStationPage (net u)
            = .error (shipStationErrorMsg (net u).status (net u).body)
          ∧ (toString (net u).status).data
              <:+: (shipStationErrorMsg (net u).status (net u).body).data
          ∧ (net u).body.data
              <:+: (shipStationErrorMsg (net u).status (net u).body).data)
    ∧ (∀ u, (net u).ok = true → (net u).payload.shipments = none →
        fetchShipStationPage (net u) = .error invalidFormatMsg) := by
  refine ⟨?_, ?_, ?_, ?_⟩
  · intro e he
    unfold fetchNewShipments
    dsimp only
    rw [he]
  · intro d k e h1 hk2 hkp hgood hbad
    have hsplit : List.range' 2 (d.pages - 1)
        = List.range' 2 (k - 2) ++ k :: List.range' (k + 1) (d.pages - k) := by
      have hcons : k :: List.range' (k + 1) (d.pages - k)
          = List.range' k (d.pages - k + 1) := rfl
      rw [hcons]
      have happ := List.range'_append 2 (k - 2) (d.pages - k + 1) 1
      rw [show 2 + 1 * (k - 2) = k by omega,
        show d.pages - k + 1 + (k - 2) = d.pages - 1 by omega] at happ
      exact happ.symm
    have htail : List.range' 2 (k - 2) ++ [k] = List.range' 2 (k - 1) := by
      have hone : [k] = List.range' k 1 := rfl
      rw [hone]
      have happ := List.range'_append 2 (k - 2) 1 1
      rw [show 2 + 1 * (k - 2) = k by omega, show 1 + (k - 2) = k - 1 by omega] at happ
      exact happ
    have hloop := fetchPagesLoop_err net (shipStationBase dateStr)
      (btoa (apiKey ++ ":" ++ apiSecret)) (List.range' 2 (k - 2)) k
      (List.range' (k + 1) (d.pages - k)) (d.shipments.getD [])
      [⟨shipStationBase dateStr, btoa (apiKey ++ ":" ++ apiSecret)⟩] e
      (fun p hp => by
        have hb := List.mem_range'_1.mp hp
        exact hgood p hb.1 (by omega)) hbad
    constructor
    · unfold fetchNewShipments
      dsimp only
      rw [h1]
      dsimp only
      rw [if_pos (by omega : d.pages > 1), hsplit, hloop]
    · unfold fetchNewShipments
      dsimp only
      rw [h1]
      dsimp only
      rw [if_pos (by omega : d.pages > 1), hsplit, hloop]
      rw [htail]
      simp
  · intro u hu
    refine ⟨?_, ?_, ?_⟩
    · unfold fetchShipStationPage
      rw [if_pos hu]
    · exact ⟨"ShipStation API error: ".data, " - ".data ++ (net u).body.data,
        by simp [shipStationErrorMsg, String.data_append, List.append_assoc]⟩
    · have : (shipStationErrorMsg (net u).status (net u).body).data
          = ("ShipStation API error: " ++ toString (net u).status ++ " - ").data
              ++ (net u).body.data := by
        simp [shipStationErrorMsg, String.data_append, List.append_assoc]
      rw [this]
      exact (List.suffix_append _ _).isInfix
  · intro u h1 h2
    unfold fetchShipStationPage
    rw [if_neg (by simp [h1]), h2]

/-- Oracle for the C4 witness: the listing declares three pages and
page 2 fails with a 503. -/
def netPageTwoFails : String → HttpResponse := fun u =>
  if u = pageUrl (shipStationBase "2024-05-01") 2 then
    ⟨false, 503, "overloaded", ⟨none, 0, 0, 0⟩⟩
  else if u = shipStationBase "2024-05-01" then
    ⟨true, 200, "", ⟨some [⟨"A1", "B1"⟩], 3, 1, 3⟩⟩
  else ⟨true, 200, "", ⟨some [⟨"A9", "B9"⟩], 3, 0, 3⟩⟩

/-- Witness for C4: with page 2 of 3 failing, the fetch returns the
transport error and never requests page 3. -/
theorem fetch_aborts_on_failing_page_witness :
    (fetchNewShipments netPageTwoFails "k" "s" "2024-05-01").1
        = .error (shipStationErrorMsg 503 "overloaded")
    ∧ (fetchNewShipments netPageTwoFails "k" "s" "2024-05-01").2
        = [⟨shipStationBase "2024-05-01", btoa ("k" ++ ":" ++ "s")⟩,
           ⟨pageUrl (shipStationBase "2024-05-01") 2, btoa ("k" ++ ":" ++ "s")⟩] := by
  have h := (fetch_aborts_on_failing_page netPageTwoFails "k" "s" "2024-05-01").2.1
    ⟨some [⟨"A1", "B1"⟩], 3, 1, 3⟩ 2 (shipStationErrorMsg 503 "overloaded")
    rfl (by omega) (by decide)
    (by
      intro j hj1 hj2
      exact absurd hj1 (by omega))
    rfl
  exact ⟨h.1, by rw [h.2]; rfl⟩

/-- C5 (amended): when every issued page request succeeds,
fetchNewShipments returns the first page's shipments followed, in page
order, by the shipments of pages 2..pages — for a declared page count
of at least 1 this is exactly the concatenation over pages 1..pages —
each shipment projected to its two fields; pages are requested
strictly sequentially in that order, and every request carries the one
credential computed from the key and secret. -/
theorem fetch_success_accumulates_pages (net : String → HttpResponse)
    (apiKey apiSecret dateStr : String) (d : ShipStationResponse)
    (h1 : fetchShipStationPage (net (shipStationBase dateStr)) = .ok d)
    (h2 : ∀ j, 2 ≤ j → j ≤ d.pages →
       ∃ dj, fetchShipStationPage (net (pageUrl (shipStationBase dateStr) j)) = .ok dj) :
    (fetchNewShipments net apiKey apiSecret dateStr).1
      = .ok ((d.shipments.getD []
            ++ (List.range' 2 (d.pages - 1)).flatMap
                (fun p => (net (pageUrl (shipStationBase dateStr) p)).payload.shipments.getD [])).map
          (fun s => ⟨s.trackingNumber, s.orderNumber⟩))
    ∧ (1 ≤ d.pages →
        (fetchNewShipments net apiKey apiSecret dateStr).1
          = .ok (((List.range' 1 d.pages).flatMap (pageShipments net dateStr)).map
              (fun s => ⟨s.trackingNumber, s.orderNumber⟩)))
    ∧ (fetchNewShipments net apiKey apiSecret dateStr).2
        = ⟨shipStationBase dateStr, btoa (apiKey ++ ":" ++ apiSecret)⟩
            :: (List.range' 2 (d.pages - 1)).map
                (fun p => ⟨pageUrl (shipStationBase dateStr) p,
                           btoa (apiKey ++ ":" ++ apiSecret)⟩)
    ∧ (∀ r ∈ (fetchNewShipments net apiKey apiSecret dateStr).2,
        r.credentials = btoa (apiKey ++ ":" ++ apiSecret)) := by
  have hmain : fetchNewShipments net apiKey apiSecret dateStr
      = (.ok ((d.shipments.getD []
            ++ (List.range' 2 (d.pages - 1)).flatMap
                (fun p => (net (pageUrl (shipStationBase dateStr) p)).payload.shipments.getD [])).map
          (fun s => ⟨s.trackingNumber, s.orderNumber⟩)),
         ⟨shipStationBase dateStr, btoa (apiKey ++ ":" ++ apiSecret)⟩
           :: (List.range' 2 (d.pages - 1)).map
               (fun p => ⟨pageUrl (shipStationBase dateStr) p,
                          btoa (apiKey ++ ":" ++ apiSecret)⟩)) := by
    unfold fetchNewShipments
    dsimp only
    rw [h1]
    dsimp only
    by_cases hp : d.pages > 1
    · rw [if_pos hp]
      rw [fetchPagesLoop_ok net (shipStationBase dateStr) (btoa (apiKey ++ ":" ++ apiSecret))
        (List.range' 2 (d.pages - 1)) (d.shipments.getD [])
        [⟨shipStationBase dateStr, btoa (apiKey ++ ":" ++ apiSecret)⟩]
        (fun p hp' => by
          have hb := List.mem_range'_1.mp hp'
          exact h2 p hb.1 (by omega))]
      dsimp only
      simp
    · rw [if_neg hp]
      have h0 : d.pages - 1 = 0 := by omega
      rw [h0]
      dsimp only
      simp
  refine ⟨by rw [hmain], ?_, by rw [hmain], ?_⟩
  · intro hp1
    rw [hmain]
    dsimp only
    obtain ⟨hd, -, -⟩ := fetchShipStationPage_ok h1
    have hr : List.range' 1 d.pages = 1 :: List.range' 2 (d.pages - 1) := by
      rcases hn : d.pages with _ | n
      · rw [hn] at hp1
        omega
      · rfl
    have hps1 : pageShipments net dateStr 1
        = (net (shipStationBase dateStr)).payload.shipments.getD [] := rfl
    rw [hr, List.flatMap_cons, hps1, ← hd]
    rw [flatMapCongr (List.range' 2 (d.pages - 1)) (pageShipments net dateStr)
      (fun p => (net (pageUrl (shipStationBase dateStr) p)).payload.shipments.getD [])
      (fun p hp' => by
        have hb := List.mem_range'_1.mp hp'
        unfold pageShipments
        rw [if_neg (by omega)])]
  · rw [hmain]
    intro r hr
    rcases List.mem_cons.mp hr with h' | h'
    · rw [h']
    · rcases List.mem_map.mp h' with ⟨p, -, hpr⟩
      rw [← hpr]

/-- Oracle for the C5 witness: a clean two-page listing. -/
def netTwoPages : String → HttpResponse := fun u =>
  if u = pageUrl (shipStationBase "2024-06-01") 2 then
    ⟨true, 200, "", ⟨some [⟨"A2", "B2"⟩], 2, 2, 2⟩⟩
  else ⟨true, 200, "", ⟨some [⟨"A1", "B1"⟩], 2, 1, 2⟩⟩

/-- Witness for the amended C5 on the two-page oracle. -/
theorem fetch_success_accumulates_pages_witness :
    (fetchNewShipments netTwoPages "k" "s" "2024-06-01").1
      = .ok [⟨"A1", "B1"⟩, ⟨"A2", "B2"⟩] := by
  have h := (fetch_success_accumulates_pages netTwoPages "k" "s" "2024-06-01"
      ⟨some [⟨"A1", "B1"⟩], 2, 1, 2⟩ rfl
      (by
        intro j hj1 hj2
        have hj2' : j ≤ 2 := hj2
        have hj : j = 2 := by omega
        subst hj
        exact ⟨⟨some [⟨"A2", "B2"⟩], 2, 2, 2⟩, rfl⟩)).2.1 (by decide)
  rw [h]
  rfl

/-- Oracle for the C5 counterexample: the single successful page
declares a page count of zero while carrying one shipment. -/
def netZeroPages : String → HttpResponse := fun u =>
  if u = shipStationBase "2024-07-01" then
    ⟨true, 200, "", ⟨some [⟨"T1", "O1"⟩], 1, 1, 0⟩⟩
  else ⟨true, 200, "", ⟨some [], 0, 0, 0⟩⟩

/-- C5 counterexample: every issued request succeeds (only the base
page is requested, and it parses), yet the result is the first page's
one shipment while the claim's concatenation over pages 1..pages — the
declared count being 0 — is empty. -/
theorem fetch_success_concatenation_cex :
    (fetchNewShipments netZeroPages "k" "s" "2024-07-01").2
        = [⟨shipStationBase "2024-07-01", btoa ("k" ++ ":" ++ "s")⟩]
    ∧ fetchShipStationPage (netZeroPages (shipStationBase "2024-07-01"))
        = .ok ⟨some [⟨"T1", "O1"⟩], 1, 1, 0⟩
    ∧ (fetchNewShipments netZeroPages "k" "s" "2024-07-01").1
        = .ok [⟨"T1", "O1"⟩]
    ∧ ((List.range' 1 ((netZeroPages (shipStationBase "2024-07-01")).payload.pages)).flatMap
          (pageShipments netZeroPages "2024-07-01")).map
        (fun s => (⟨s.trackingNumber, s.orderNumber⟩ : ShipmentData)) = []
    ∧ (Except.ok [(⟨"T1", "O1"⟩ : ShipmentData)] : Except String (List ShipmentData))
        ≠ .ok [] := by
  refine ⟨rfl, rfl, rfl, rfl, ?_⟩
  intro h
  simp at h

end UspsTracking
